import Mathlib

/-!
# Sensu agent: connection manager (`agent/agent.go`)

A shallow embedding of the connection manager of the agent: `NewAgent`,
`handshake`, `Run`, the two pumps (`sendPump`, `receivePump`), the
reconnect-watch goroutine that `Run` starts, `Stop` and `sendMessage`.

Sequential code (`handshake`, `Run`) is embedded as functions.  The concurrent
part is embedded as an interleaving step function `step` over a `Runtime` state
that holds the `Agent` record, the connection objects, the wait group and the
program counter of every goroutine.
-/

namespace SensuAgent

/-! ## Collaborators outside `agent.go` -/

/-- A byte slice (`[]byte`). -/
abbrev Bytes := List UInt8

/-- Modelled from the spec: the `transport` package is a collaborator whose
errors are classified as transient-connection (`transport.ConnectionError`),
terminal-closed (`transport.ClosedError`) or unclassified.  The constructors
are the three classes that the type switches of `agent.go` distinguish; the
same type stands for every Go `error` value. -/
inductive Error where
  | ConnectionError (msg : String)
  | ClosedError (msg : String)
  | other (msg : String)
  deriving DecidableEq

/-- The method `Error()` of a Go `error`: its text. -/
def Error.text : Error → String
  | .ConnectionError msg => msg
  | .ClosedError msg => msg
  | .other msg => msg

/-- One call on a connection together with what it returned. -/
inductive ConnCall where
  | send (t : String) (p : Bytes) (err : Option Error)
  | receive (r : Except Error (String × Bytes))
  | close

/-- Modelled from the spec: a `transport.Transport` connection handle with the
primitives `Send`, `Receive` and `Close`.  The behaviour of the remote end is
arbitrary: what a call returns is a function of everything that happened on
the connection so far, and every call is appended to `history`. -/
structure Transport where
  sendResult : List ConnCall → String → Bytes → Option Error
  recvResult : List ConnCall → Except Error (String × Bytes)
  history : List ConnCall

/-- The call `conn.Send(t, p)`. -/
def Transport.Send (c : Transport) (t : String) (p : Bytes) : Option Error × Transport :=
  let err := c.sendResult c.history t p
  (err, { c with history := c.history ++ [ConnCall.send t p err] })

/-- The call `conn.Receive()`. -/
def Transport.Receive (c : Transport) : Except Error (String × Bytes) × Transport :=
  let r := c.recvResult c.history
  (r, { c with history := c.history ++ [ConnCall.receive r] })

/-- The call `conn.Close()`. -/
def Transport.Close (c : Transport) : Transport :=
  { c with history := c.history ++ [ConnCall.close] }

/-- The payload `types.AgentHandshake`. -/
structure AgentHandshake where
  Subscriptions : List String
  deriving DecidableEq

/-- The payload `types.BackendHandshake` (no negotiated fields). -/
structure BackendHandshake where
  deriving DecidableEq

/-- Modelled from the spec: the `types` package (the two well-known handshake
type tags) and the JSON codec applied to the two handshake payloads are not
part of `agent.go`; they are parameters of the embedding. -/
structure Types where
  AgentHandshakeType : String
  BackendHandshakeType : String
  Marshal : AgentHandshake → Except Error Bytes
  Unmarshal : Bytes → Except Error BackendHandshake

/-! ## `agent.go` -/

/-- The constant `MaxMessageBufferSize`. -/
def MaxMessageBufferSize : Nat := 10

/-- The struct `Config`. -/
structure Config where
  BackendURL : String
  Subscriptions : List String
  deriving DecidableEq

/-- The struct `message`. -/
structure message where
  msgType : String
  Payload : Bytes
  deriving DecidableEq

/-- The struct `Agent`.  `conn` is a pointer: `none` is `nil`, `some c` is the
`c`-th connection object created by `transport.Connect`.  `sendq` is the
content of the buffered channel (capacity 10).  The `handler` field is left
out (what `Handle` returns is supplied by the environment) and the unbuffered
`stopChan` is represented by the rendezvous events of `step`. -/
structure Agent where
  config : Config
  backendURL : String
  conn : Option Nat
  sendq : List message
  disconnected : Bool

/-- The function `NewAgent`. -/
def NewAgent (config : Config) : Agent :=
  { config := config
    backendURL := config.BackendURL
    conn := none
    sendq := []
    disconnected := true }

/-- The body of `Agent.handshake`, on the connection `a.conn` points to. -/
def handshake (ty : Types) (config : Config) (conn : Transport) : Option Error × Transport :=
  match ty.Marshal { Subscriptions := config.Subscriptions } with
  | .error err => (some err, conn)
  | .ok msgBytes =>
    -- shoot first, ask questions later.
    match conn.Send ty.AgentHandshakeType msgBytes with
    | (some err, conn) => (some err, conn)
    | (none, conn) =>
      match conn.Receive with
      | (.error err, conn) => (some err, conn)
      | (.ok (t, m), conn) =>
        if t != ty.BackendHandshakeType then
          (some (Error.other "backend did not send handshake"), conn)
        else
          match ty.Unmarshal m with
          | .error err =>
            (some (Error.other ("error unmarshaling backend handshake: " ++ err.text)), conn)
          | .ok _ => (none, conn)

/-! ## Goroutines -/

/-- Where a `receivePump` goroutine stands: at the head of its loop (line 64)
or inside the blocking `conn.Receive()` (line 70). -/
inductive RecvPC where
  | top
  | receiving
  deriving DecidableEq

/-- A running `receivePump` goroutine: its `conn` argument and where it stands. -/
structure RecvPump where
  conn : Nat
  pc : RecvPC
  deriving DecidableEq

/-- Where the reconnect-watch goroutine of `Run` (lines 175-216) stands. -/
inductive WatchPC where
  /-- at `select` (line 180) -/
  | select
  /-- before `a.conn.Close()` (line 182) -/
  | stopClose
  /-- in `wg.Wait()` of the stop case (line 183) -/
  | stopWait
  /-- in `a.stopChan <- struct{}{}` (line 184) -/
  | stopAck
  /-- in `wg.Wait()` of the tick case (line 188) -/
  | tickWait
  /-- before `transport.Connect(a.backendURL)` (line 189) -/
  | connect
  /-- in `time.Sleep(1 * time.Second)` (line 193) -/
  | sleep
  /-- before `a.conn = conn` (line 202), `conn` being the new connection -/
  | connected (conn : Nat)
  /-- before `go a.sendPump(wg, conn)` (line 210) -/
  | goSend (conn : Nat)
  /-- before `go a.receivePump(wg, conn)` (line 211) -/
  | goRecv (conn : Nat)
  /-- before `a.disconnected = false` (line 212) -/
  | setConnected
  deriving DecidableEq

/-- Where the caller of `Stop` stands: not called yet, in the send of line 224,
in the `select` of line 225, or returned. -/
inductive StopPC where
  | notCalled
  | sending
  | waiting
  | returned
  deriving DecidableEq

/-- The agent together with everything `Run` creates: the connection objects,
the wait group `wg`, the running pumps (a `sendPump` is always at its
`select`, so it is represented by its `conn` argument), the reconnect-watch
goroutine (`none` until `Run` starts it) with its local `retries`, the caller
of `Stop`, the targets of all `transport.Connect` calls, and the messages
passed to `a.handler.Handle` with what it returned. -/
structure Runtime where
  a : Agent
  conns : List Transport
  wg : Nat
  sendPumps : List Nat
  recvPumps : List RecvPump
  watch : Option WatchPC
  retries : Int
  stop : StopPC
  dialled : List String
  handled : List (message × Option Error)

/-- The state before `Run` is called on a new agent. -/
def Runtime.init (a : Agent) : Runtime :=
  { a := a
    conns := []
    wg := 0
    sendPumps := []
    recvPumps := []
    watch := none
    retries := 0
    stop := StopPC.notCalled
    dialled := []
    handled := [] }

/-- The number of running pump goroutines. -/
def Runtime.pumps (s : Runtime) : Nat :=
  s.sendPumps.length + s.recvPumps.length

/-- The call `a.handshake()`: `handshake` on the connection `a.conn` points to.
A nil or dangling `a.conn` (a panic in Go) is reported as an error. -/
def Runtime.handshake (ty : Types) (s : Runtime) : Option Error × Runtime :=
  match s.a.conn with
  | none => (some (Error.other "nil connection"), s)
  | some c =>
    match s.conns[c]? with
    | none => (some (Error.other "nil connection"), s)
    | some conn =>
      let r := SensuAgent.handshake ty s.a.config conn
      (r.1, { s with conns := s.conns.set c r.2 })

/-- The method `Agent.Run` up to its `return`; `dial` is what
`transport.Connect(a.config.BackendURL)` returns. -/
def Run (ty : Types) (dial : Except Error Transport) (s : Runtime) : Option Error × Runtime :=
  let s := { s with dialled := s.dialled ++ [s.a.config.BackendURL] }
  match dial with
  | .error err => (some err, s)
  | .ok conn =>
    let c := s.conns.length
    let s := { s with conns := s.conns ++ [conn] }
    let s := { s with a := { s.a with conn := some c } }
    let s := { s with wg := 2 }
    match s.handshake ty with
    | (some err, s) => (some err, s)
    | (none, s) =>
      let s := { s with a := { s.a with disconnected := false } }
      let s := { s with sendPumps := s.sendPumps ++ [c] }
      let s := { s with recvPumps := s.recvPumps ++ [RecvPump.mk c RecvPC.top] }
      let s := { s with watch := some WatchPC.select, retries := 0 }
      (none, s)

/-- The Go `int` increment `retries++` (64-bit, wrapping). -/
def incr (n : Int) : Int :=
  (n + 1 + 2 ^ 63) % 2 ^ 64 - 2 ^ 63

/-- One scheduling step of `receivePump` number `i`: at the head of the loop
it tests `a.disconnected` (and leaves through `wg.Done()`), inside
`conn.Receive()` it completes the call and handles what it returned;
`h` is what `a.handler.Handle(t, m)` returns if it is called. -/
def receivePump (s : Runtime) (i : Nat) (h : Option Error) : Runtime :=
  match s.recvPumps[i]? with
  | none => s
  | some p =>
    match p.pc with
    | RecvPC.top =>
      if s.a.disconnected then
        { s with wg := s.wg - 1, recvPumps := s.recvPumps.eraseIdx i }
      else
        { s with recvPumps := s.recvPumps.set i { p with pc := RecvPC.receiving } }
    | RecvPC.receiving =>
      match s.conns[p.conn]? with
      | none => s
      | some conn =>
        let r := conn.Receive
        let s := { s with conns := s.conns.set p.conn r.2,
                          recvPumps := s.recvPumps.set i { p with pc := RecvPC.top } }
        match r.1 with
        | .error (Error.ConnectionError _) => { s with a := { s.a with disconnected := true } }
        | .error (Error.ClosedError _) => { s with a := { s.a with disconnected := true } }
        | .error (Error.other _) => s
        | .ok (t, m) => { s with handled := s.handled ++ [({ msgType := t, Payload := m }, h)] }

/-- The two cases of the `select` in `sendPump`. -/
inductive SendCase where
  | msg
  | tick
  deriving DecidableEq

/-- One iteration of `sendPump` number `i` through the given `select` case:
`msg` takes the head of `a.sendq` and sends it, `tick` tests
`a.disconnected` (and leaves through `wg.Done()`). -/
def sendPump (s : Runtime) (i : Nat) (k : SendCase) : Runtime :=
  match s.sendPumps[i]? with
  | none => s
  | some c =>
    match k with
    | SendCase.msg =>
      match s.a.sendq, s.conns[c]? with
      | msg :: rest, some conn =>
        let r := conn.Send msg.msgType msg.Payload
        let s := { s with a := { s.a with sendq := rest }, conns := s.conns.set c r.2 }
        match r.1 with
        | some (Error.ConnectionError _) => { s with a := { s.a with disconnected := true } }
        | some (Error.ClosedError _) => { s with a := { s.a with disconnected := true } }
        | some (Error.other _) => s
        | none => s
      | _, _ => s
    | SendCase.tick =>
      if s.a.disconnected then
        { s with wg := s.wg - 1, sendPumps := s.sendPumps.eraseIdx i }
      else
        s

/-- The `case <-ticker.C` of the reconnect-watch goroutine (lines 185-186). -/
def watchTick (s : Runtime) : Runtime :=
  match s.watch with
  | some WatchPC.select =>
    if s.a.disconnected then { s with watch := some WatchPC.tickWait } else s
  | _ => s

/-- The call `transport.Connect(a.backendURL)` of the reconnect-watch goroutine
(lines 189-190) returning `dial`. -/
def watchConnect (s : Runtime) (dial : Except Error Transport) : Runtime :=
  match s.watch with
  | some WatchPC.connect =>
    let s := { s with dialled := s.dialled ++ [s.a.backendURL] }
    match dial with
    | .error _ => { s with watch := some WatchPC.sleep }
    | .ok conn =>
      { s with conns := s.conns ++ [conn], watch := some (WatchPC.connected s.conns.length) }
  | _ => s

/-- The next statement of the reconnect-watch goroutine where it needs no
outside event.  A `wg.Wait()` is passed only when the counter is zero. -/
def watchStep (ty : Types) (s : Runtime) : Runtime :=
  match s.watch with
  | some WatchPC.stopClose =>
    match s.a.conn with
    | none => s
    | some c =>
      match s.conns[c]? with
      | none => s
      | some conn => { s with conns := s.conns.set c conn.Close, watch := some WatchPC.stopWait }
  | some WatchPC.stopWait =>
    if s.wg = 0 then { s with watch := some WatchPC.stopAck } else s
  | some WatchPC.tickWait =>
    if s.wg = 0 then { s with watch := some WatchPC.connect } else s
  | some WatchPC.sleep =>
    let retries := incr s.retries
    let s := { s with retries := retries }
    let s := if retries ≥ 30 then { s with a := { s.a with backendURL := s.a.config.BackendURL } } else s
    { s with watch := some WatchPC.select }
  | some (WatchPC.connected c) =>
    let s := { s with a := { s.a with conn := some c } }
    let s := { s with wg := s.wg + 2 }
    match s.handshake ty with
    | (some _, s) => { s with watch := some WatchPC.select }
    | (none, s) => { s with watch := some (WatchPC.goSend c) }
  | some (WatchPC.goSend c) =>
    { s with sendPumps := s.sendPumps ++ [c], watch := some (WatchPC.goRecv c) }
  | some (WatchPC.goRecv c) =>
    { s with recvPumps := s.recvPumps ++ [RecvPump.mk c RecvPC.top],
             watch := some WatchPC.setConnected }
  | some WatchPC.setConnected =>
    { s with a := { s.a with disconnected := false }, watch := some WatchPC.select }
  | _ => s

/-- The method `Agent.sendMessage`: it completes only while the channel holds
fewer than 10 messages. -/
def sendMessage (s : Runtime) (msgType : String) (payload : Bytes) : Runtime :=
  if s.a.sendq.length < 10 then
    { s with a := { s.a with sendq := s.a.sendq ++ [{ msgType := msgType, Payload := payload }] } }
  else
    s

/-- The events of the method `Agent.Stop` and of its peer in the
reconnect-watch goroutine. -/
inductive StopEvent where
  /-- the call of `Stop()` -/
  | call
  /-- the send of line 224 meets the receive of line 181 -/
  | signal
  /-- the send of line 184 meets the receive of line 226 -/
  | ack
  /-- the timer of line 228 fires -/
  | timeout
  deriving DecidableEq

/-- The method `Agent.Stop`, one event at a time.  `stopChan` is unbuffered:
a send completes only together with a receive on the other side. -/
def Stop (s : Runtime) (e : StopEvent) : Runtime :=
  match e, s.stop, s.watch with
  | StopEvent.call, StopPC.notCalled, _ => { s with stop := StopPC.sending }
  | StopEvent.signal, StopPC.sending, some WatchPC.select =>
    { s with stop := StopPC.waiting, watch := some WatchPC.stopClose }
  | StopEvent.ack, StopPC.waiting, some WatchPC.stopAck =>
    { s with stop := StopPC.returned, watch := some WatchPC.select }
  | StopEvent.timeout, StopPC.waiting, _ => { s with stop := StopPC.returned }
  | _, _, _ => s

/-- What the scheduler or the outside world can make happen next. -/
inductive Event where
  /-- the ticker of the reconnect-watch goroutine fires -/
  | tick
  /-- the reconnect-watch goroutine executes its next statement -/
  | watch
  /-- the return of `transport.Connect` in the reconnect-watch goroutine -/
  | connect (dial : Except Error Transport)
  /-- a step of `receivePump` number `i`; `h` is what `Handle` returns if called -/
  | recv (i : Nat) (h : Option Error)
  /-- one `select` case of `sendPump` number `i` -/
  | send (i : Nat) (k : SendCase)
  /-- a producer calls `sendMessage` -/
  | sendMessage (msgType : String) (payload : Bytes)
  /-- an event of `Stop` -/
  | stop (e : StopEvent)

/-- One step of the whole system.  An event that is not enabled in `s`
leaves `s` unchanged. -/
def step (ty : Types) (s : Runtime) : Event → Runtime
  | Event.tick => watchTick s
  | Event.watch => watchStep ty s
  | Event.connect dial => watchConnect s dial
  | Event.recv i h => receivePump s i h
  | Event.send i k => sendPump s i k
  | Event.sendMessage t p => sendMessage s t p
  | Event.stop e => Stop s e

/-- The state after a schedule of events. -/
def run (ty : Types) (s : Runtime) (sched : List Event) : Runtime :=
  sched.foldl (step ty) s

/-! ## Vocabulary of the statements and concrete inputs -/

/-- Type tags and a toy codec on which the embedding is evaluated. -/
def testTypes : Types :=
  { AgentHandshakeType := "agent_handshake"
    BackendHandshakeType := "backend_handshake"
    Marshal := fun h => .ok (h.Subscriptions.map (fun x => x.length.toUInt8))
    Unmarshal := fun b =>
      if b = [] then .error (Error.other "unexpected end of JSON input") else .ok {} }

/-- A configuration with two subscriptions. -/
def testConfig : Config :=
  { BackendURL := "ws://backend:8081", Subscriptions := ["linux", "web"] }

/-- Whether a recorded call is `Close`. -/
def ConnCall.isClose : ConnCall → Bool
  | ConnCall.close => true
  | _ => false

/-- A backend that acknowledges the handshake and then sends nothing; after
`Close` every read fails with a `ClosedError`. -/
def goodConn : Transport :=
  { sendResult := fun _ _ _ => none
    recvResult := fun h =>
      if h.any ConnCall.isClose then .error (Error.ClosedError "use of closed connection")
      else if h.length ≤ 1 then .ok ("backend_handshake", [123, 125])
      else .error (Error.other "timeout")
    history := [] }

/-- A backend that acknowledges the handshake and then drops the connection. -/
def dropConn : Transport :=
  { sendResult := fun h _ _ => if h.length ≤ 1 then none else some (Error.ClosedError "closed")
    recvResult := fun h =>
      if h.length ≤ 1 then .ok ("backend_handshake", [123, 125])
      else .error (Error.ClosedError "closed")
    history := [] }

/-- A backend that answers the handshake with a message of another type. -/
def wrongTagConn : Transport :=
  { sendResult := fun _ _ _ => none
    recvResult := fun _ => .ok ("keepalive", [])
    history := [] }

/-- The state after `Run` on a new agent with `testConfig`, the initial
`transport.Connect` returning the connection `conn`. -/
def started (conn : Transport) : Runtime :=
  (Run testTypes (.ok conn) (Runtime.init (NewAgent testConfig))).2

/-- Whether an error belongs to one of the two classes that mark the session
disconnected. -/
def Error.fatal : Error → Bool
  | Error.ConnectionError _ => true
  | Error.ClosedError _ => true
  | Error.other _ => false

/-- Whether the result of `conn.Receive()` is an error of one of the two
classes that mark the session disconnected. -/
def recvFatal : Except Error (String × Bytes) → Bool
  | .error e => e.fatal
  | .ok _ => false

/-- Whether the result of `conn.Send` is an error of one of the two classes
that mark the session disconnected. -/
def sendFatal : Option Error → Bool
  | some e => e.fatal
  | none => false

/-- The events of one reconnect attempt that fails with the connect error `e`:
the tick, the passed `wg.Wait()`, the failed `transport.Connect`, and the sleep
followed by `retries++` and the fallback test. -/
def failedAttempt (e : Error) : List Event :=
  [Event.tick, Event.watch, Event.connect (.error e), Event.watch]

/-- A session in an outage: the backend dropped the connection, both pumps
have left, and the selected address is an alternate one. -/
def outage : Runtime :=
  let s := run testTypes (started dropConn)
    [Event.recv 0 none, Event.recv 0 none, Event.recv 0 none, Event.send 0 SendCase.tick]
  { s with a := { s.a with backendURL := "ws://alternate:8081" } }

/-- The number of `wg.Done()` calls that the reconnect-watch goroutine has
added to the wait group for pumps it has not started yet. -/
def pending : Option WatchPC → Nat
  | some (WatchPC.goSend _) => 2
  | some (WatchPC.goRecv _) => 1
  | _ => 0

/-- The wait group never counts fewer than the running pumps plus the pumps
about to be started, and it is zero when `transport.Connect` is about to be
called on the reconnect path. -/
def Inv (s : Runtime) : Prop :=
  s.sendPumps.length + s.recvPumps.length + pending s.watch ≤ s.wg
  ∧ (s.watch = some WatchPC.connect → s.wg = 0)

/-- The session of `started dropConn` after the backend dropped the
connection, both pumps left, and a reconnect whose `transport.Connect`
succeeded but whose handshake was answered with the wrong type tag. -/
def afterFailedRehandshake : Runtime :=
  run testTypes (started dropConn)
    [Event.recv 0 none, Event.recv 0 none, Event.recv 0 none, Event.send 0 SendCase.tick,
     Event.tick, Event.watch, Event.connect (.ok wrongTagConn), Event.watch]

/-- The session of `started dropConn` after the backend dropped the
connection, both pumps left and the reconnect-watch goroutine passed its
`wg.Wait()`: it is about to call `transport.Connect`. -/
def beforeReconnect : Runtime :=
  run testTypes (started dropConn)
    [Event.recv 0 none, Event.recv 0 none, Event.recv 0 none, Event.send 0 SendCase.tick,
     Event.tick, Event.watch]

/-- The session of `started goodConn` after a complete `Stop`: the signal was
taken, the connection closed, both pumps left, and the acknowledgement was
received by `Stop`, which returned. -/
def afterStop : Runtime :=
  run testTypes (started goodConn)
    [Event.stop StopEvent.call, Event.stop StopEvent.signal, Event.watch,
     Event.recv 0 none, Event.recv 0 none, Event.recv 0 none, Event.send 0 SendCase.tick,
     Event.watch, Event.stop StopEvent.ack]

/-- The session of `started dropConn` after the backend dropped the
connection, both pumps left, and a reconnect succeeded up to the start of both
new pumps: the reconnect-watch goroutine stands before line 212. -/
def reconnectedPumpsStarted : Runtime :=
  run testTypes beforeReconnect
    [Event.connect (.ok goodConn), Event.watch, Event.watch, Event.watch]

/-- The message a `sendMessage` event offers to the queue. -/
def Event.enqueued : Event → List message
  | Event.sendMessage t p => [{ msgType := t, Payload := p }]
  | _ => []

/-- The session of `started dropConn` with two queued messages after the
`sendPump` took the first one and its write failed with a `ClosedError`. -/
def afterFailedWrite : Runtime :=
  run testTypes (started dropConn)
    [Event.sendMessage "event" [1], Event.sendMessage "event" [2], Event.send 0 SendCase.msg]

/-- The session of `afterFailedWrite` once its `sendPump` has terminated on
its tick: one message is left in the queue. -/
def queuedOutage : Runtime :=
  run testTypes afterFailedWrite [Event.send 0 SendCase.tick]

/-- The outage of `queuedOutage` up to the start of the next `sendPump`: a
producer enqueues a message, the `receivePump` leaves, the reconnect and the
handshake succeed, and the new `sendPump` is started. -/
def outageSchedule : List Event :=
  [Event.sendMessage "event" [3], Event.recv 0 none, Event.tick, Event.watch,
   Event.connect (.ok goodConn), Event.watch, Event.watch]

/-- The session of `beforeReconnect` with two queued messages after a
reconnect to a backend that drops the connection right after the handshake:
the new `sendPump` took the first message and its write failed with a
`ClosedError`, then the `receivePump` was started and line 212 cleared the
flag. -/
def failedWriteThenConnected : Runtime :=
  run testTypes beforeReconnect
    [Event.sendMessage "event" [1], Event.sendMessage "event" [2],
     Event.connect (.ok dropConn), Event.watch, Event.watch, Event.send 0 SendCase.msg,
     Event.watch, Event.watch]

/-! ## The handshake and `Run` -/

/-- C2: the handshake first sends one message tagged `AgentHandshakeType` whose
payload is the encoding of the configured subscriptions, reads only after
that send succeeded, reads at most once, and returns nil exactly when the send
and the read succeed, the tag is `BackendHandshakeType` and the payload
decodes. -/
theorem handshake_send_then_single_read (ty : Types) (config : Config) (conn : Transport)
    (msgBytes : Bytes)
    (hm : ty.Marshal { Subscriptions := config.Subscriptions } = .ok msgBytes) :
    let sent := conn.sendResult conn.history ty.AgentHandshakeType msgBytes
    let h1 := conn.history ++ [ConnCall.send ty.AgentHandshakeType msgBytes sent]
    let got := conn.recvResult h1
    (handshake ty config conn).2.history
        = (if sent = none then h1 ++ [ConnCall.receive got] else h1)
    ∧ ((handshake ty config conn).1 = none ↔
        sent = none ∧ ∃ m resp, got = .ok (ty.BackendHandshakeType, m)
          ∧ ty.Unmarshal m = .ok resp) := by
  intro sent h1 got
  unfold handshake
  simp only [hm, Transport.Send, Transport.Receive]
  cases hs : conn.sendResult conn.history ty.AgentHandshakeType msgBytes with
  | some err => simp [sent, hs, h1]
  | none =>
    simp only [sent, hs, if_true]
    cases hg : conn.recvResult (conn.history ++ [ConnCall.send ty.AgentHandshakeType msgBytes none]) with
    | error err => simp [got, h1, sent, hs, hg]
    | ok tm =>
      obtain ⟨t, m⟩ := tm
      by_cases ht : t = ty.BackendHandshakeType
      · subst ht
        cases hu : ty.Unmarshal m with
        | error err =>
          simp only [got, h1, sent, hs, hg, bne_self_eq_false, Bool.false_eq_true, if_false, hu]
          refine ⟨by simp, ?_⟩
          constructor
          · intro h; cases h
          · rintro ⟨_, m', resp, h, hr⟩
            cases h
            rw [hu] at hr
            cases hr
        | ok resp =>
          simp only [got, h1, sent, hs, hg, bne_self_eq_false, Bool.false_eq_true, if_false, hu]
          exact ⟨by simp, fun _ => ⟨trivial, m, resp, rfl, hu⟩, fun _ => trivial⟩
      · have hne : (t != ty.BackendHandshakeType) = true := by simpa using ht
        simp only [got, h1, sent, hs, hg, hne, if_true]
        refine ⟨by simp, ?_⟩
        constructor
        · intro h; cases h
        · rintro ⟨_, m', resp, h, _⟩
          cases h
          exact absurd rfl ht

/-- Witness for C2: with the toy codec and a backend that acknowledges, the
handshake sends, reads once and returns nil. -/
theorem handshake_send_then_single_read_witness :
    testTypes.Marshal { Subscriptions := testConfig.Subscriptions } = .ok [5, 3]
    ∧ (handshake testTypes testConfig goodConn).1 = none :=
  ⟨rfl, (handshake_send_then_single_read testTypes testConfig goodConn [5, 3] rfl).2.2
    ⟨rfl, [123, 125], {}, rfl, rfl⟩⟩

/-- The call `a.handshake()` touches nothing but the connection objects. -/
theorem Runtime.handshake_frame (ty : Types) (s : Runtime) :
    ∃ cs, (s.handshake ty).2 = { s with conns := cs } := by
  unfold Runtime.handshake
  cases s.a.conn with
  | none => exact ⟨s.conns, rfl⟩
  | some c =>
    dsimp only
    split
    · exact ⟨s.conns, rfl⟩
    · exact ⟨_, rfl⟩

theorem Run_started_or_failed (ty : Types) (config : Config) (dial : Except Error Transport) :
    (Run ty dial (Runtime.init (NewAgent config))).1 = none
    ∨ ((Run ty dial (Runtime.init (NewAgent config))).2.watch = none
      ∧ (Run ty dial (Runtime.init (NewAgent config))).2.stop = StopPC.notCalled) := by
  cases dial with
  | error err => simp [Run, Runtime.init, NewAgent]
  | ok conn =>
    cases hh : (handshake ty config conn).1 with
    | some err => simp [Run, Runtime.init, NewAgent, Runtime.handshake, hh]
    | none => simp [Run, Runtime.init, NewAgent, Runtime.handshake, hh]

/-- C1: `Run` on a new agent returns nil exactly when the initial connect and
the initial handshake both succeed; when it returns an error no pump and no
reconnect-watch goroutine has been started and the agent is still
disconnected (and when it returns nil both pumps and the reconnect-watch
goroutine run and the agent is connected). -/
theorem Run_nil_iff_connect_and_handshake (ty : Types) (config : Config)
    (dial : Except Error Transport) :
    let r := Run ty dial (Runtime.init (NewAgent config))
    (r.1 = none ↔ ∃ conn, dial = .ok conn ∧ (handshake ty config conn).1 = none)
    ∧ (r.1 ≠ none →
        r.2.sendPumps = [] ∧ r.2.recvPumps = [] ∧ r.2.watch = none
          ∧ r.2.a.disconnected = true)
    ∧ (r.1 = none →
        r.2.sendPumps = [0] ∧ r.2.recvPumps = [RecvPump.mk 0 RecvPC.top]
          ∧ r.2.watch = some WatchPC.select ∧ r.2.a.disconnected = false ∧ r.2.wg = 2) := by
  intro r
  cases dial with
  | error err => simp [r, Run, Runtime.init, NewAgent]
  | ok conn =>
    cases hh : (handshake ty config conn).1 with
    | some err =>
      simp [r, Run, Runtime.init, NewAgent, Runtime.handshake, hh]
    | none =>
      simp [r, Run, Runtime.init, NewAgent, Runtime.handshake, hh]

/-- Witness for C1: against a backend that answers with the wrong type tag
`Run` returns an error and starts nothing. -/
theorem Run_nil_iff_connect_and_handshake_witness :
    (Run testTypes (.ok wrongTagConn) (Runtime.init (NewAgent testConfig))).1 ≠ none
    ∧ (Run testTypes (.ok wrongTagConn) (Runtime.init (NewAgent testConfig))).2.watch = none :=
  ⟨by decide,
    ((Run_nil_iff_connect_and_handshake testTypes testConfig (.ok wrongTagConn)).2.1
      (by decide)).2.2.1⟩

/-! ## The pumps -/

/-- C6: one I/O step of either pump marks the session disconnected exactly when
the I/O call returned a `ConnectionError` or a `ClosedError`; any other I/O
error, a successful call and any result of the message handler leave the flag
as it was, and the pump keeps running. -/
theorem pump_io_step_sets_disconnected_iff_fatal (s : Runtime) (i c : Nat) (conn : Transport)
    (hc : s.conns[c]? = some conn) :
    (∀ h : Option Error, s.recvPumps[i]? = some (RecvPump.mk c RecvPC.receiving) →
      (recvFatal (conn.recvResult conn.history) = true →
        (receivePump s i h).a.disconnected = true)
      ∧ (recvFatal (conn.recvResult conn.history) = false →
        (receivePump s i h).a.disconnected = s.a.disconnected
        ∧ (receivePump s i h).recvPumps = s.recvPumps.set i (RecvPump.mk c RecvPC.top)
        ∧ (receivePump s i h).wg = s.wg))
    ∧ (∀ msg rest, s.sendPumps[i]? = some c → s.a.sendq = msg :: rest →
      (sendFatal (conn.sendResult conn.history msg.msgType msg.Payload) = true →
        (sendPump s i SendCase.msg).a.disconnected = true)
      ∧ (sendFatal (conn.sendResult conn.history msg.msgType msg.Payload) = false →
        (sendPump s i SendCase.msg).a.disconnected = s.a.disconnected
        ∧ (sendPump s i SendCase.msg).sendPumps = s.sendPumps
        ∧ (sendPump s i SendCase.msg).wg = s.wg)) := by
  constructor
  · intro h hp
    unfold receivePump
    simp only [hp, hc, Transport.Receive]
    cases hr : conn.recvResult conn.history with
    | error e => cases e <;> simp [recvFatal, Error.fatal]
    | ok tm => simp [recvFatal]
  · intro msg rest hp hq
    unfold sendPump
    simp only [hp, hc, hq, Transport.Send]
    cases hr : conn.sendResult conn.history msg.msgType msg.Payload with
    | some e => cases e <;> simp [sendFatal, Error.fatal]
    | none => simp [sendFatal]

/-- Witness for C6: the `receivePump` of a session whose backend dropped the
connection reads a `ClosedError` and marks the session disconnected. -/
theorem pump_io_step_sets_disconnected_iff_fatal_witness :
    (run testTypes (started dropConn) [Event.recv 0 none]).recvPumps[0]?
        = some (RecvPump.mk 0 RecvPC.receiving)
    ∧ (receivePump (run testTypes (started dropConn) [Event.recv 0 none]) 0 none).a.disconnected
        = true :=
  ⟨by decide,
    ((pump_io_step_sets_disconnected_iff_fatal
        (run testTypes (started dropConn) [Event.recv 0 none]) 0 0
        (handshake testTypes testConfig dropConn).2 (by rfl)).1 none (by decide)).1 (by decide)⟩

/-! ## Reconnect and fallback -/

theorem incr_eq (n : Int) (h0 : 0 ≤ n) (h1 : n + 1 < 2 ^ 63) : incr n = n + 1 := by
  unfold incr
  omega

theorem run_append (ty : Types) (s : Runtime) (xs ys : List Event) :
    run ty s (xs ++ ys) = run ty (run ty s xs) ys := by
  simp [run, List.foldl_append]

theorem run_failedAttempt (ty : Types) (s : Runtime) (e : Error)
    (hw : s.watch = some WatchPC.select) (hd : s.a.disconnected = true) (hwg : s.wg = 0) :
    run ty s (failedAttempt e) =
      { s with
        dialled := s.dialled ++ [s.a.backendURL]
        retries := incr s.retries
        a := if incr s.retries ≥ 30 then { s.a with backendURL := s.a.config.BackendURL } else s.a
        watch := some WatchPC.select } := by
  simp only [run, failedAttempt, List.foldl, step, watchTick, hw, hd, if_true, watchStep, hwg,
    watchConnect]
  split <;> rfl

theorem run_failedAttempts (ty : Types) (errs : List Error) :
    ∀ s : Runtime, s.watch = some WatchPC.select → s.a.disconnected = true → s.wg = 0 →
      0 ≤ s.retries → s.retries + errs.length < 2 ^ 63 →
      (run ty s (errs.flatMap failedAttempt)).watch = some WatchPC.select
      ∧ (run ty s (errs.flatMap failedAttempt)).a.disconnected = true
      ∧ (run ty s (errs.flatMap failedAttempt)).wg = 0
      ∧ (run ty s (errs.flatMap failedAttempt)).a.config = s.a.config
      ∧ (run ty s (errs.flatMap failedAttempt)).retries = s.retries + errs.length
      ∧ (run ty s (errs.flatMap failedAttempt)).dialled.length = s.dialled.length + errs.length
      ∧ (s.retries + errs.length < 30 →
          (run ty s (errs.flatMap failedAttempt)).a.backendURL = s.a.backendURL)
      ∧ (30 ≤ s.retries + errs.length → errs ≠ [] →
          (run ty s (errs.flatMap failedAttempt)).a.backendURL = s.a.config.BackendURL) := by
  induction errs with
  | nil =>
    intro s hw hd hwg _ _
    simp [run, hw, hd, hwg]
  | cons e rest ih =>
    intro s hw hd hwg h0 h1
    have hlen : ((e :: rest).length : Int) = (rest.length : Int) + 1 := by simp
    rw [hlen] at h1
    have hi : incr s.retries = s.retries + 1 := incr_eq _ h0 (by omega)
    rw [List.flatMap_cons, run_append, run_failedAttempt ty s e hw hd hwg, hi]
    have ih1 := ih
      { s with
        dialled := s.dialled ++ [s.a.backendURL]
        retries := s.retries + 1
        a := if s.retries + 1 ≥ 30 then { s.a with backendURL := s.a.config.BackendURL } else s.a
        watch := some WatchPC.select }
      rfl (by dsimp only; split <;> simp [hd]) hwg (by dsimp only; omega) (by dsimp only; omega)
    obtain ⟨i1, i2, i3, i4, i5, i6, i7, i8⟩ := ih1
    have hcfg : (if s.retries + 1 ≥ 30 then { s.a with backendURL := s.a.config.BackendURL }
        else s.a).config = s.a.config := by split <;> rfl
    refine ⟨i1, i2, i3, ?_, ?_, ?_, ?_, ?_⟩
    · rw [i4]; exact hcfg
    · rw [i5, hlen]; dsimp only; omega
    · rw [i6]; simp; omega
    · intro hlt
      rw [hlen] at hlt
      rw [i7 (by dsimp only; omega)]
      dsimp only
      rw [if_neg (by omega)]
    · intro hge _
      rw [hlen] at hge
      by_cases hr : rest = []
      · subst hr
        simp only [List.flatMap_nil, run, List.foldl]
        have : s.retries + 1 ≥ 30 := by simpa using hge
        rw [if_pos this]
      · rw [i8 (by dsimp only; omega) hr]
        exact congrArg Config.BackendURL hcfg

/-- C5: after 30 consecutive failed reconnect attempts the selected address is
the configured one, so the next `transport.Connect` of the reconnect-watch
goroutine dials `config.BackendURL`; while the retry counter stays below 30 a
failed attempt leaves the selected address as it was.  (`retries` is a Go
`int`: the statement covers the first `2 ^ 63 - 30` failures.) -/
theorem fallback_after_thirty_failures (ty : Types) (s : Runtime) (errs : List Error)
    (next : Except Error Transport)
    (hw : s.watch = some WatchPC.select) (hd : s.a.disconnected = true) (hwg : s.wg = 0)
    (h0 : 0 ≤ s.retries) (h1 : s.retries + 30 < 2 ^ 63) (hn : errs.length = 30) :
    (run ty s (errs.flatMap failedAttempt)).a.backendURL = s.a.config.BackendURL
    ∧ (run ty s (errs.flatMap failedAttempt)).dialled.length = s.dialled.length + 30
    ∧ (run ty (run ty s (errs.flatMap failedAttempt))
          [Event.tick, Event.watch, Event.connect next]).dialled
        = (run ty s (errs.flatMap failedAttempt)).dialled ++ [s.a.config.BackendURL]
    ∧ (∀ e, s.retries + 1 < 30 → (run ty s (failedAttempt e)).a.backendURL = s.a.backendURL) := by
  have hne : errs ≠ [] := by
    intro h
    rw [h] at hn
    simp at hn
  obtain ⟨i1, i2, i3, _, _, i6, _, i8⟩ :=
    run_failedAttempts ty errs s hw hd hwg h0 (by rw [hn]; norm_num; omega)
  have hurl := i8 (by rw [hn]; norm_num; omega) hne
  refine ⟨hurl, by rw [i6, hn], ?_, ?_⟩
  · simp only [run, List.foldl, step, watchTick, watchStep, watchConnect] at i1 i2 i3 hurl ⊢
    simp only [i1, i2, i3, if_true]
    cases next <;> simp [hurl]
  · intro e hlt
    have := run_failedAttempts ty [e] s hw hd hwg h0 (by simp; omega)
    simp only [List.flatMap_cons, List.flatMap_nil, List.append_nil] at this
    exact this.2.2.2.2.2.2.1 (by simp; omega)

/-- Witness for C5: from an outage on an alternate address, 30 refused
connects bring the selected address back to the configured one. -/
theorem fallback_after_thirty_failures_witness :
    outage.watch = some WatchPC.select ∧ outage.a.disconnected = true ∧ outage.wg = 0
    ∧ outage.a.backendURL ≠ outage.a.config.BackendURL
    ∧ (run testTypes outage
        ((List.replicate 30 (Error.ConnectionError "refused")).flatMap failedAttempt)).a.backendURL
        = outage.a.config.BackendURL :=
  ⟨by decide, by decide, by decide, by decide,
    (fallback_after_thirty_failures testTypes outage
      (List.replicate 30 (Error.ConnectionError "refused")) (.error (Error.other "refused"))
      (by decide) (by decide) (by decide) (by decide) (by decide) (by decide)).1⟩

/-! ## Pumps and the wait group -/

theorem receivePump_frame (s : Runtime) (i : Nat) (h : Option Error) :
    (receivePump s i h).watch = s.watch ∧ (receivePump s i h).stop = s.stop
    ∧ (receivePump s i h).dialled = s.dialled ∧ (receivePump s i h).sendPumps = s.sendPumps
    ∧ (receivePump s i h).a.sendq = s.a.sendq
    ∧ (((receivePump s i h).wg = s.wg
          ∧ (receivePump s i h).recvPumps.length = s.recvPumps.length)
        ∨ ((receivePump s i h).recvPumps.length + 1 = s.recvPumps.length
          ∧ (receivePump s i h).wg = s.wg - 1)) := by
  unfold receivePump
  split
  · simp
  · rename_i p hp
    have hi : i < s.recvPumps.length := (List.getElem?_eq_some.1 hp).1
    split
    · split
      · refine ⟨rfl, rfl, rfl, rfl, rfl, Or.inr ⟨?_, rfl⟩⟩
        exact List.length_eraseIdx_add_one hi
      · simp
    · split
      · simp
      · dsimp only
        split <;> simp

theorem sendPump_frame (s : Runtime) (i : Nat) (k : SendCase) :
    (sendPump s i k).watch = s.watch ∧ (sendPump s i k).stop = s.stop
    ∧ (sendPump s i k).dialled = s.dialled ∧ (sendPump s i k).recvPumps = s.recvPumps
    ∧ (((sendPump s i k).wg = s.wg ∧ (sendPump s i k).sendPumps = s.sendPumps)
        ∨ ((sendPump s i k).sendPumps.length + 1 = s.sendPumps.length
          ∧ (sendPump s i k).wg = s.wg - 1)) := by
  unfold sendPump
  split
  · simp
  · rename_i c hp
    have hi : i < s.sendPumps.length := (List.getElem?_eq_some.1 hp).1
    split
    · split
      · dsimp only
        split <;> simp
      · simp
    · split
      · refine ⟨rfl, rfl, rfl, rfl, Or.inr ⟨?_, rfl⟩⟩
        exact List.length_eraseIdx_add_one hi
      · simp

theorem Inv_step (ty : Types) (s : Runtime) (e : Event) (hs : Inv s) : Inv (step ty s e) := by
  obtain ⟨h1, h2⟩ := hs
  cases e with
  | tick =>
    simp only [step, watchTick]
    split
    · split
      · rename_i hw _
        simp only [Inv, hw, pending] at h1 ⊢
        exact ⟨h1, by simp⟩
      · exact ⟨h1, h2⟩
    · exact ⟨h1, h2⟩
  | watch =>
    simp only [step, watchStep]
    split
    · -- stopClose
      rename_i hw
      split
      · exact ⟨h1, h2⟩
      · split
        · exact ⟨h1, h2⟩
        · simp only [Inv, hw, pending] at h1 ⊢
          exact ⟨h1, by simp⟩
    · -- stopWait
      rename_i hw
      split
      · simp only [Inv, hw, pending] at h1 ⊢
        exact ⟨h1, by simp⟩
      · exact ⟨h1, h2⟩
    · -- tickWait
      rename_i hw
      split
      · rename_i h0
        simp only [Inv, hw, pending] at h1 ⊢
        exact ⟨h1, fun _ => h0⟩
      · exact ⟨h1, h2⟩
    · -- sleep
      rename_i hw
      simp only [Inv, hw, pending] at h1 ⊢
      split <;> exact ⟨h1, by simp⟩
    · -- connected
      rename_i c hw
      obtain ⟨cs, hcs⟩ := Runtime.handshake_frame ty
        { s with a := { s.a with conn := some c }, wg := s.wg + 2 }
      split
      · rename_i err s1 heq
        have : s1 = _ := (congrArg Prod.snd heq).symm.trans hcs
        subst this
        simp only [Inv, hw, pending] at h1 ⊢
        exact ⟨by omega, by simp⟩
      · rename_i s1 heq
        have : s1 = _ := (congrArg Prod.snd heq).symm.trans hcs
        subst this
        simp only [Inv, hw, pending] at h1 ⊢
        exact ⟨by omega, by simp⟩
    · -- goSend
      rename_i c hw
      simp only [Inv, hw, pending, List.length_append, List.length_singleton] at h1 ⊢
      exact ⟨by omega, by simp⟩
    · -- goRecv
      rename_i c hw
      simp only [Inv, hw, pending, List.length_append, List.length_singleton] at h1 ⊢
      exact ⟨by omega, by simp⟩
    · -- setConnected
      rename_i hw
      simp only [Inv, hw, pending] at h1 ⊢
      exact ⟨h1, by simp⟩
    · exact ⟨h1, h2⟩
  | connect dial =>
    simp only [step, watchConnect]
    split
    · rename_i hw
      simp only [Inv, hw, pending] at h1 ⊢
      split <;> exact ⟨h1, by simp⟩
    · exact ⟨h1, h2⟩
  | recv i h =>
    simp only [step]
    obtain ⟨f1, _, _, f4, _, f5⟩ := receivePump_frame s i h
    simp only [Inv, f1, f4]
    rcases f5 with ⟨g1, g2⟩ | ⟨g1, g2⟩
    · rw [g1, g2]
      exact ⟨h1, h2⟩
    · rw [g2]
      refine ⟨by omega, fun hw => ?_⟩
      have := h2 hw
      omega
  | send i k =>
    simp only [step]
    obtain ⟨f1, _, _, f4, f5⟩ := sendPump_frame s i k
    simp only [Inv, f1, f4]
    rcases f5 with ⟨g1, g2⟩ | ⟨g1, g2⟩
    · rw [g1, g2]
      exact ⟨h1, h2⟩
    · rw [g2]
      refine ⟨by omega, fun hw => ?_⟩
      have := h2 hw
      omega
  | sendMessage t p =>
    simp only [step, sendMessage]
    split <;> exact ⟨h1, h2⟩
  | stop e =>
    simp only [step, Stop]
    split
    · exact ⟨h1, h2⟩
    · rename_i hw
      simp only [Inv, hw, pending] at h1 ⊢
      exact ⟨h1, by simp⟩
    · rename_i hw
      simp only [Inv, hw, pending] at h1 ⊢
      exact ⟨h1, by simp⟩
    · exact ⟨h1, h2⟩
    · exact ⟨h1, h2⟩

theorem Inv_Run (ty : Types) (config : Config) (dial : Except Error Transport) :
    Inv (Run ty dial (Runtime.init (NewAgent config))).2 := by
  cases dial with
  | error err => simp [Run, Runtime.init, NewAgent, Inv, pending]
  | ok conn =>
    cases hh : (handshake ty config conn).1 with
    | some err => simp [Run, Runtime.init, NewAgent, Runtime.handshake, hh, Inv, pending]
    | none => simp [Run, Runtime.init, NewAgent, Runtime.handshake, hh, Inv, pending]

theorem Inv_run (ty : Types) (sched : List Event) :
    ∀ s : Runtime, Inv s → Inv (run ty s sched) := by
  induction sched with
  | nil => intro s hs; exact hs
  | cons e rest ih => intro s hs; exact ih _ (Inv_step ty s e hs)

/-- C8: after a reconnect whose handshake failed, the reconnect-watch goroutine
waits in `wg.Wait()` on a wait group that counts 2 while no pump is running
(the `wg.Add(2)` of line 204 is not undone), whereas at the wait of the
preceding reconnect of the same session the count and the number of running
pumps were both zero. -/
theorem wait_group_count_differs_from_running_pumps :
    (run testTypes afterFailedRehandshake [Event.tick]).watch = some WatchPC.tickWait
    ∧ (run testTypes afterFailedRehandshake [Event.tick]).wg = 2
    ∧ (run testTypes afterFailedRehandshake [Event.tick]).pumps = 0
    ∧ (run testTypes (started dropConn)
        [Event.recv 0 none, Event.recv 0 none, Event.recv 0 none,
         Event.send 0 SendCase.tick, Event.tick]).watch = some WatchPC.tickWait
    ∧ (run testTypes (started dropConn)
        [Event.recv 0 none, Event.recv 0 none, Event.recv 0 none,
         Event.send 0 SendCase.tick, Event.tick]).wg = 0
    ∧ (run testTypes (started dropConn)
        [Event.recv 0 none, Event.recv 0 none, Event.recv 0 none,
         Event.send 0 SendCase.tick, Event.tick]).pumps = 0 := by
  decide

/-- Safety of the reconnect: in every state reachable after `Run`, the wait group counts
at least the running pumps, so whenever it is zero, and in particular whenever
the reconnect-watch goroutine calls `transport.Connect`, no `sendPump` and no
`receivePump` is running. -/
theorem reconnect_only_after_pumps_exited (ty : Types) (config : Config)
    (dial : Except Error Transport) (sched : List Event) :
    (run ty (Run ty dial (Runtime.init (NewAgent config))).2 sched).pumps
        ≤ (run ty (Run ty dial (Runtime.init (NewAgent config))).2 sched).wg
    ∧ ((run ty (Run ty dial (Runtime.init (NewAgent config))).2 sched).watch
          = some WatchPC.connect →
        (run ty (Run ty dial (Runtime.init (NewAgent config))).2 sched).sendPumps = []
        ∧ (run ty (Run ty dial (Runtime.init (NewAgent config))).2 sched).recvPumps = [])
    ∧ (∀ next : Except Error Transport,
        (step ty (run ty (Run ty dial (Runtime.init (NewAgent config))).2 sched)
            (Event.connect next)).dialled
          ≠ (run ty (Run ty dial (Runtime.init (NewAgent config))).2 sched).dialled →
        (run ty (Run ty dial (Runtime.init (NewAgent config))).2 sched).sendPumps = []
        ∧ (run ty (Run ty dial (Runtime.init (NewAgent config))).2 sched).recvPumps = []) := by
  have hinv := Inv_run ty sched _ (Inv_Run ty config dial)
  generalize run ty (Run ty dial (Runtime.init (NewAgent config))).2 sched = s at hinv ⊢
  obtain ⟨h1, h2⟩ := hinv
  have key : s.watch = some WatchPC.connect → s.sendPumps = [] ∧ s.recvPumps = [] := by
    intro hw
    have h0 := h2 hw
    have hs : s.sendPumps.length = 0 := by omega
    have hr : s.recvPumps.length = 0 := by omega
    exact ⟨List.length_eq_zero.1 hs, List.length_eq_zero.1 hr⟩
  refine ⟨by unfold Runtime.pumps; omega, key, ?_⟩
  intro next hne
  apply key
  by_contra hw
  apply hne
  simp only [step, watchConnect]

/-- Example of the safety of the reconnect: when the reconnect-watch goroutine of the dropped
session is about to call `transport.Connect`, no pump is running. -/
theorem reconnect_only_after_pumps_exited_witness :
    beforeReconnect.watch = some WatchPC.connect
    ∧ beforeReconnect.sendPumps = [] ∧ beforeReconnect.recvPumps = [] :=
  ⟨by decide,
    (reconnect_only_after_pumps_exited testTypes testConfig (.ok dropConn)
      [Event.recv 0 none, Event.recv 0 none, Event.recv 0 none, Event.send 0 SendCase.tick,
       Event.tick, Event.watch]).2.1 (by decide)⟩

theorem stuck_step (ty : Types) (s : Runtime) (e : Event)
    (hw : s.watch = some WatchPC.tickWait) (hwg : s.wg ≠ 0)
    (hs : s.sendPumps = []) (hr : s.recvPumps = []) :
    (step ty s e).watch = some WatchPC.tickWait ∧ (step ty s e).wg = s.wg
    ∧ (step ty s e).sendPumps = [] ∧ (step ty s e).recvPumps = []
    ∧ (step ty s e).dialled = s.dialled := by
  cases e with
  | tick => simp [step, watchTick, hw, hs, hr]
  | watch => simp [step, watchStep, hw, hwg, hs, hr]
  | connect dial => simp [step, watchConnect, hw, hs, hr]
  | recv i h => simp [step, receivePump, hr, hw, hs]
  | send i k => simp [step, sendPump, hs, hw, hr]
  | sendMessage t p =>
    simp only [step, sendMessage]
    split <;> simp [hw, hs, hr]
  | stop e =>
    simp only [step, Stop]
    split <;> simp_all

theorem stuck_run (ty : Types) (sched : List Event) :
    ∀ s : Runtime, s.watch = some WatchPC.tickWait → s.wg ≠ 0 →
      s.sendPumps = [] → s.recvPumps = [] →
      (run ty s sched).watch = some WatchPC.tickWait ∧ (run ty s sched).dialled = s.dialled := by
  induction sched with
  | nil => intro s hw _ _ _; exact ⟨hw, rfl⟩
  | cons e rest ih =>
    intro s hw hwg hs hr
    obtain ⟨g1, g2, g3, g4, g5⟩ := stuck_step ty s e hw hwg hs hr
    have := ih (step ty s e) g1 (by rw [g2]; exact hwg) g3 g4
    rw [g5] at this
    exact this

/-- C7: after a reconnect whose connect succeeded and whose handshake failed,
no pump runs but the wait group counts 2; from the following tick on the
reconnect-watch goroutine stays in `wg.Wait()` under every schedule and never
calls `transport.Connect` again. -/
theorem failed_rehandshake_blocks_reconnect (sched : List Event) :
    afterFailedRehandshake.watch = some WatchPC.select
    ∧ afterFailedRehandshake.a.disconnected = true
    ∧ afterFailedRehandshake.sendPumps = [] ∧ afterFailedRehandshake.recvPumps = []
    ∧ afterFailedRehandshake.wg = 2
    ∧ (run testTypes afterFailedRehandshake (Event.tick :: sched)).watch
        = some WatchPC.tickWait
    ∧ (run testTypes afterFailedRehandshake (Event.tick :: sched)).dialled
        = afterFailedRehandshake.dialled := by
  refine ⟨by decide, by decide, by decide, by decide, by decide, ?_⟩
  have h := stuck_run testTypes sched (step testTypes afterFailedRehandshake Event.tick)
    (by decide) (by decide) (by decide) (by decide)
  exact ⟨h.1, h.2.trans (by decide)⟩

/-! ## `Stop` -/

theorem blocked_step (ty : Types) (s : Runtime) (e : Event)
    (hw : s.watch = none) (hst : s.stop = StopPC.sending) :
    (step ty s e).watch = none ∧ (step ty s e).stop = StopPC.sending := by
  cases e with
  | tick => simp [step, watchTick, hw, hst]
  | watch => simp [step, watchStep, hw, hst]
  | connect dial => simp [step, watchConnect, hw, hst]
  | recv i h =>
    obtain ⟨f1, f2, _⟩ := receivePump_frame s i h
    simp only [step]
    exact ⟨f1.trans hw, f2.trans hst⟩
  | send i k =>
    obtain ⟨f1, f2, _⟩ := sendPump_frame s i k
    simp only [step]
    exact ⟨f1.trans hw, f2.trans hst⟩
  | sendMessage t p =>
    simp only [step, sendMessage]
    split <;> exact ⟨hw, hst⟩
  | stop e =>
    simp only [step, Stop]
    split <;> simp_all

theorem blocked_run (ty : Types) (sched : List Event) :
    ∀ s : Runtime, s.watch = none → s.stop = StopPC.sending →
      (run ty s sched).stop = StopPC.sending := by
  induction sched with
  | nil => intro s _ hst; exact hst
  | cons e rest ih =>
    intro s hw hst
    obtain ⟨g1, g2⟩ := blocked_step ty s e hw hst
    exact ih (step ty s e) g1 g2

theorem Stop_call (s : Runtime) (h : s.stop = StopPC.notCalled) :
    (Stop s StopEvent.call).stop = StopPC.sending ∧ (Stop s StopEvent.call).watch = s.watch := by
  unfold Stop
  split <;> simp_all

theorem stuck_stop_step (ty : Types) (s : Runtime) (e : Event)
    (hw : s.watch = some WatchPC.tickWait) (hs : s.sendPumps = []) (hr : s.recvPumps = [])
    (hst : s.stop = StopPC.sending) :
    (step ty s e).stop = StopPC.sending := by
  cases e with
  | tick => simp [step, watchTick, hw, hst]
  | watch =>
    simp only [step, watchStep, hw]
    split <;> exact hst
  | connect dial => simp [step, watchConnect, hw, hst]
  | recv i h => simp [step, receivePump, hr, hst]
  | send i k => simp [step, sendPump, hs, hst]
  | sendMessage t p =>
    simp only [step, sendMessage]
    split <;> exact hst
  | stop e =>
    simp only [step, Stop]
    split <;> simp_all

theorem stuck_stop_run (ty : Types) (sched : List Event) :
    ∀ s : Runtime, s.watch = some WatchPC.tickWait → s.wg ≠ 0 →
      s.sendPumps = [] → s.recvPumps = [] → s.stop = StopPC.sending →
      (run ty s sched).stop = StopPC.sending := by
  induction sched with
  | nil => intro s _ _ _ _ hst; exact hst
  | cons e rest ih =>
    intro s hw hwg hs hr hst
    obtain ⟨g1, g2, g3, g4, _⟩ := stuck_step ty s e hw hwg hs hr
    exact ih (step ty s e) g1 (by rw [g2]; exact hwg) g3 g4
      (stuck_stop_step ty s e hw hs hr hst)

/-- C4: when `Run` was not called, or returned an error, there is no
reconnect-watch goroutine to receive from `stopChan`: a call of `Stop` stays in
its first send (line 224) under every schedule and never reaches the `select`
with the 1-second timer.  The same holds after a successful `Run` once the
reconnect-watch goroutine is held in `wg.Wait()` by a failed reconnect
handshake. -/
theorem Stop_blocks_without_receiver (ty : Types) (config : Config)
    (dial : Except Error Transport) (sched : List Event) :
    (run ty (Runtime.init (NewAgent config)) (Event.stop StopEvent.call :: sched)).stop
        = StopPC.sending
    ∧ ((Run ty dial (Runtime.init (NewAgent config))).1 ≠ none →
        (run ty (Run ty dial (Runtime.init (NewAgent config))).2
          (Event.stop StopEvent.call :: sched)).stop = StopPC.sending)
    ∧ (run testTypes afterFailedRehandshake
        (Event.tick :: Event.stop StopEvent.call :: sched)).stop = StopPC.sending := by
  refine ⟨blocked_run ty sched _ rfl rfl, ?_, ?_⟩
  · intro herr
    have hw := ((Run_started_or_failed ty config dial).resolve_left herr)
    have hc := Stop_call (Run ty dial (Runtime.init (NewAgent config))).2 hw.2
    exact blocked_run ty sched _ (hc.2.trans hw.1) hc.1
  · exact stuck_stop_run testTypes sched
      (run testTypes afterFailedRehandshake [Event.tick, Event.stop StopEvent.call])
      (by decide) (by decide) (by decide) (by decide) (by decide)

/-- Witness for C4: after a `Run` that failed in the handshake, a call of
`Stop` is still in its first send after the ticker and the timer events. -/
theorem Stop_blocks_without_receiver_witness :
    (Run testTypes (.ok wrongTagConn) (Runtime.init (NewAgent testConfig))).1 ≠ none
    ∧ (run testTypes (Run testTypes (.ok wrongTagConn) (Runtime.init (NewAgent testConfig))).2
        [Event.stop StopEvent.call, Event.tick, Event.stop StopEvent.signal,
         Event.stop StopEvent.timeout]).stop = StopPC.sending :=
  ⟨by decide,
    (Stop_blocks_without_receiver testTypes testConfig (.ok wrongTagConn)
      [Event.tick, Event.stop StopEvent.signal, Event.stop StopEvent.timeout]).2.1 (by decide)⟩

/-- C3: after `Stop` has returned with the acknowledgement, the
reconnect-watch goroutine is back at its `select` with the session
disconnected; on the next tick it calls `transport.Connect` again, runs the
handshake on the new connection and starts a new `sendPump` and a new
`receivePump`. -/
theorem reconnect_after_Stop_returned :
    afterStop.stop = StopPC.returned
    ∧ afterStop.sendPumps = [] ∧ afterStop.recvPumps = []
    ∧ afterStop.watch = some WatchPC.select
    ∧ afterStop.dialled = ["ws://backend:8081"]
    ∧ (run testTypes afterStop [Event.tick, Event.watch, Event.connect (.ok goodConn)]).dialled
        = ["ws://backend:8081", "ws://backend:8081"]
    ∧ (run testTypes afterStop
        [Event.tick, Event.watch, Event.connect (.ok goodConn), Event.watch, Event.watch,
         Event.watch, Event.watch]).sendPumps = [1]
    ∧ (run testTypes afterStop
        [Event.tick, Event.watch, Event.connect (.ok goodConn), Event.watch, Event.watch,
         Event.watch, Event.watch]).recvPumps = [RecvPump.mk 1 RecvPC.top]
    ∧ (run testTypes afterStop
        [Event.tick, Event.watch, Event.connect (.ok goodConn), Event.watch, Event.watch,
         Event.watch, Event.watch]).a.disconnected = false := by
  decide

/-! ## Order of pump start and liveness flag -/

/-- C10: on the reconnect path both pumps are started while `a.disconnected`
is still true; a `receivePump` scheduled before line 212 sees the stale flag
and leaves at once, and the epoch goes on with a `sendPump` only. -/
theorem reconnect_starts_pumps_before_connected :
    reconnectedPumpsStarted.watch = some WatchPC.setConnected
    ∧ reconnectedPumpsStarted.sendPumps = [1]
    ∧ reconnectedPumpsStarted.recvPumps = [RecvPump.mk 1 RecvPC.top]
    ∧ reconnectedPumpsStarted.a.disconnected = true
    ∧ (run testTypes reconnectedPumpsStarted [Event.recv 0 none, Event.watch]).recvPumps = []
    ∧ (run testTypes reconnectedPumpsStarted [Event.recv 0 none, Event.watch]).sendPumps = [1]
    ∧ (run testTypes reconnectedPumpsStarted [Event.recv 0 none, Event.watch]).a.disconnected
        = false
    ∧ (run testTypes reconnectedPumpsStarted [Event.recv 0 none, Event.watch]).watch
        = some WatchPC.select
    ∧ (started dropConn).a.disconnected = false
    ∧ (started dropConn).recvPumps = [RecvPump.mk 0 RecvPC.top] := by
  decide

/-! ## The outbound queue across an outage -/

theorem watchStep_sendq (ty : Types) (s : Runtime) :
    (watchStep ty s).a.sendq = s.a.sendq := by
  simp only [watchStep]
  split
  · split
    · rfl
    · split <;> rfl
  · split <;> rfl
  · split <;> rfl
  · split <;> rfl
  · rename_i c hw
    obtain ⟨cs, hcs⟩ := Runtime.handshake_frame ty
      { s with a := { s.a with conn := some c }, wg := s.wg + 2 }
    split
    · rename_i err s1 heq
      have : s1 = _ := (congrArg Prod.snd heq).symm.trans hcs
      subst this
      rfl
    · rename_i s1 heq
      have : s1 = _ := (congrArg Prod.snd heq).symm.trans hcs
      subst this
      rfl
  · rfl
  · rfl
  · rfl
  · rfl

theorem step_sendq_of_no_sendPump (ty : Types) (s : Runtime) (e : Event)
    (hs : s.sendPumps = []) :
    ∃ more, (step ty s e).a.sendq = s.a.sendq ++ more ∧ more.Sublist e.enqueued := by
  cases e with
  | tick =>
    refine ⟨[], ?_, by simp⟩
    simp only [step, watchTick, List.append_nil]
    split
    · split <;> rfl
    · rfl
  | watch => exact ⟨[], by simp [step, watchStep_sendq], by simp⟩
  | connect dial =>
    refine ⟨[], ?_, by simp⟩
    simp only [step, watchConnect, List.append_nil]
    split
    · split <;> rfl
    · rfl
  | recv i h =>
    obtain ⟨_, _, _, _, f5, _⟩ := receivePump_frame s i h
    exact ⟨[], by simp [step, f5], by simp⟩
  | send i k => exact ⟨[], by simp [step, sendPump, hs], by simp⟩
  | sendMessage t p =>
    simp only [step, sendMessage]
    split
    · exact ⟨[{ msgType := t, Payload := p }], rfl, by simp [Event.enqueued]⟩
    · exact ⟨[], by simp, by simp⟩
  | stop e =>
    refine ⟨[], ?_, by simp⟩
    simp only [step, Stop, List.append_nil]
    split <;> rfl

theorem run_sendq_of_no_sendPump (ty : Types) (sched : List Event) :
    ∀ s : Runtime,
      (∀ k, k < sched.length → (run ty s (sched.take k)).sendPumps = []) →
      ∃ more, (run ty s sched).a.sendq = s.a.sendq ++ more
        ∧ more.Sublist (sched.flatMap Event.enqueued) := by
  induction sched with
  | nil => intro s _; exact ⟨[], by simp [run], by simp⟩
  | cons e rest ih =>
    intro s hk
    have h0 : s.sendPumps = [] := by simpa [run] using hk 0 (by simp)
    obtain ⟨m1, hm1, hsub1⟩ := step_sendq_of_no_sendPump ty s e h0
    obtain ⟨m2, hm2, hsub2⟩ := ih (step ty s e) (by
      intro k hlt
      have := hk (k + 1) (by simpa using hlt)
      simpa [run] using this)
    refine ⟨m1 ++ m2, ?_, ?_⟩
    · have : run ty s (e :: rest) = run ty (step ty s e) rest := rfl
      rw [this, hm2, hm1, List.append_assoc]
    · rw [List.flatMap_cons]
      exact List.Sublist.append hsub1 hsub2

/-- C9: after a write failed with a `ClosedError` and marked the session
disconnected, the `sendPump` is still running and, before its next tick, takes
the next message from the queue and hands it to the failed connection; the
message is not in the queue when the next `sendPump` has been started.  A
`receivePump` in the same situation leaves at the head of its loop without
another read.  And when the failed write is that of a `sendPump` just started
by a reconnect, line 212 clears the flag and the next tick does not terminate
the pump. -/
theorem sendPump_takes_message_after_failed_write :
    afterFailedWrite.a.disconnected = true
    ∧ afterFailedWrite.a.sendq = [{ msgType := "event", Payload := [2] }]
    ∧ (run testTypes afterFailedWrite [Event.send 0 SendCase.msg]).sendPumps = [0]
    ∧ (run testTypes afterFailedWrite [Event.send 0 SendCase.msg]).a.sendq = []
    ∧ (run testTypes afterFailedWrite
        [Event.send 0 SendCase.msg, Event.send 0 SendCase.tick, Event.recv 0 none,
         Event.tick, Event.watch, Event.connect (.ok goodConn), Event.watch,
         Event.watch]).sendPumps = [1]
    ∧ (run testTypes afterFailedWrite
        [Event.send 0 SendCase.msg, Event.send 0 SendCase.tick, Event.recv 0 none,
         Event.tick, Event.watch, Event.connect (.ok goodConn), Event.watch,
         Event.watch]).a.sendq = []
    ∧ (run testTypes (started dropConn)
        [Event.recv 0 none, Event.recv 0 none]).a.disconnected = true
    ∧ (run testTypes (started dropConn)
        [Event.recv 0 none, Event.recv 0 none, Event.recv 0 none]).recvPumps = []
    ∧ (run testTypes (started dropConn)
        [Event.recv 0 none, Event.recv 0 none, Event.recv 0 none]).conns.map
          (fun c => c.history.length) = [3]
    ∧ failedWriteThenConnected.conns.map (fun c => c.history.length) = [3, 3]
    ∧ failedWriteThenConnected.a.disconnected = false
    ∧ failedWriteThenConnected.a.sendq = [{ msgType := "event", Payload := [2] }]
    ∧ (run testTypes failedWriteThenConnected [Event.send 0 SendCase.tick]).sendPumps = [1]
    ∧ (run testTypes failedWriteThenConnected
        [Event.send 0 SendCase.tick, Event.send 0 SendCase.msg]).a.sendq = [] := by
  decide

/-- Frame of the outbound queue: the tick on which the `sendPump` of a disconnected session
terminates removes nothing from the queue; while no `sendPump` is running the
queue only grows at its tail by messages that `sendMessage` enqueued, up to and
including the step that starts the next `sendPump`; and a running `sendPump`
takes the head of the queue and sends it on its own connection. -/
theorem sendq_kept_while_no_sendPump_runs (ty : Types) (s : Runtime) :
    (∀ i c, s.sendPumps[i]? = some c → s.a.disconnected = true →
      (sendPump s i SendCase.tick).sendPumps = s.sendPumps.eraseIdx i
      ∧ (sendPump s i SendCase.tick).a.sendq = s.a.sendq)
    ∧ (∀ sched : List Event,
      (∀ k, k < sched.length → (run ty s (sched.take k)).sendPumps = []) →
      ∃ more, (run ty s sched).a.sendq = s.a.sendq ++ more
        ∧ more.Sublist (sched.flatMap Event.enqueued))
    ∧ (∀ i c conn msg rest, s.sendPumps[i]? = some c → s.conns[c]? = some conn →
      s.a.sendq = msg :: rest →
      (sendPump s i SendCase.msg).a.sendq = rest
      ∧ (sendPump s i SendCase.msg).conns
          = s.conns.set c (conn.Send msg.msgType msg.Payload).2
      ∧ (conn.Send msg.msgType msg.Payload).2.history
          = conn.history ++ [ConnCall.send msg.msgType msg.Payload
              (conn.sendResult conn.history msg.msgType msg.Payload)]) := by
  refine ⟨?_, fun sched hk => run_sendq_of_no_sendPump ty sched s hk, ?_⟩
  · intro i c hp hd
    simp [sendPump, hp, hd]
  · intro i c conn msg rest hp hc hq
    unfold sendPump
    simp only [hp, hc, hq, Transport.Send]
    cases hr : conn.sendResult conn.history msg.msgType msg.Payload with
    | some e => cases e <;> simp
    | none => simp

/-- Example of the frame of the outbound queue: the message left in the queue when the `sendPump`
terminated and the message enqueued during the outage are both in the queue,
in order, when the next `sendPump` has been started. -/
theorem sendq_kept_while_no_sendPump_runs_witness :
    queuedOutage.sendPumps = []
    ∧ queuedOutage.a.sendq = [{ msgType := "event", Payload := [2] }]
    ∧ (run testTypes queuedOutage outageSchedule).sendPumps = [1]
    ∧ (run testTypes queuedOutage outageSchedule).a.sendq
        = [{ msgType := "event", Payload := [2] }, { msgType := "event", Payload := [3] }]
    ∧ ∃ more, (run testTypes queuedOutage outageSchedule).a.sendq = queuedOutage.a.sendq ++ more
        ∧ more.Sublist (outageSchedule.flatMap Event.enqueued) :=
  ⟨by decide, by decide, by decide, by decide,
    (sendq_kept_while_no_sendPump_runs testTypes queuedOutage).2.1 outageSchedule (by decide)⟩

end SensuAgent
